import Mathlib

/-!
# Verification of `decorstate` (simple state machines via decorators)

A shallow embedding of `src/decorstate.py`.  Python values that can serve as
machine states are modelled as `Option σ`, where `none` is Python `None` and
`some v` a proper state value.  Hooks, guards and actions are modelled as
functions that receive the machine's observable view (its current state value
and its user-level data) and the call arguments, and either return updated
user data (`Except.ok`) or raise an exception (`Except.error`).

Machine attributes may be *absent* before the lazy initialization performed by
`Transition.wrapper` (source lines 255-258), so each engine-managed attribute
of a machine is wrapped in one more `Option`: `none` means "attribute not
set", `some v` means "attribute set to the Python value `v`".
-/

namespace Decorstate

/-- Events recording which callables the engine actually invoked, in order.
`notifyEv` records the `notify_all` performed by `TransitionChangedEvent`
when the `with machine.transition_event` scope is exited. -/
inductive Ev : Type
  | guardEv   -- the transition's guard (`condition`) was evaluated
  | exitEv    -- the previous transition's `on_exit` hook was invoked
  | beforeEv  -- the transition's `on_before` hook was invoked
  | actionEv  -- the transition's `action` was invoked
  | afterEv   -- the transition's `on_after` hook was invoked
  | enterEv   -- the transition's `on_enter` hook was invoked
  | notifyEv  -- `TransitionChangedEvent.__exit__` woke all waiters
  deriving DecidableEq, Repr

/-- A hook callable `(machine, *args) -> value`: it sees the machine's current
state value and user data plus the call arguments, and returns updated user
data or raises.  Return values of hooks are ignored by the engine, so only
the user-data effect is modelled. -/
def Hook (σ U A E : Type) : Type := Option σ → U → A → Except E U

/-- A guard callable: like a hook, but what matters to the engine is the
truthiness `bool(...)` of its return value. -/
def GuardFn (σ U A E : Type) : Type := Option σ → U → A → Except E Bool

/-- `noop` (source lines 35-39): dummy callable returning `True`.  Used as a
hook it leaves user data unchanged; its return value is ignored. -/
def noop {σ U A E : Type} : Hook σ U A E := fun _ u _ => Except.ok u

/-- `noop` used in guard position: its return value `True` is truthy. -/
def noopGuard {σ U A E : Type} : GuardFn σ U A E := fun _ _ _ => Except.ok true

/-- The Python value passed as a transition's `current_state`: either a single
(non-iterable) value — possibly `None` — or an iterable of values. -/
inductive StateArg (σ : Type) : Type
  | one (v : Option σ)
  | seq (l : List (Option σ))
  deriving DecidableEq, Repr

/-- `iterable` (source lines 42-48): return the item itself when it is a
non-string iterable, `[item]` when it is a non-`None` scalar, `[]` for
`None`. -/
def iterable {σ : Type} : StateArg σ → List (Option σ)
  | StateArg.one (some v) => [some v]
  | StateArg.one none => []
  | StateArg.seq l => l

/-- `Transition` (source lines 64-123): a transition definition.  `__init__`
replaces a missing guard and missing hooks by `noop` (`condition or noop`,
etc.), so those fields are total functions here; `action` keeps its `None`
default and is therefore an `Option`. -/
structure Transition (σ U A E : Type) : Type where
  current_state : StateArg σ
  next_state : Option σ
  action : Option (Hook σ U A E)
  condition : GuardFn σ U A E
  on_enter : Hook σ U A E
  on_exit : Hook σ U A E
  on_before : Hook σ U A E
  on_after : Hook σ U A E

namespace Transition

/-- `Transition.default_state` (source line 106): `None`. -/
def default_state {σ : Type} : Option σ := none

/-- `Transition.default_transition` (source line 109): `None`. -/
def default_transition {σ U A E : Type} : Option (Transition σ U A E) := none

/-- `Transition.default_transition_event` (source line 112): the one
class-level `TransitionChangedEvent()` instance, created when the class body
is evaluated.  Notifier objects are modelled by their identity token; this
single shared default instance is token `0`. -/
def default_transition_event : Nat := 0

/-- `Transition.update` (source lines 140-151): build a new `Transition` from
`self`, replacing each field for which a (truthy) callable was passed and
copying the old field otherwise (`action or self.action`, `condition or
self.condition`, ...; genuine callables are truthy, `None` is falsy). -/
def update {σ U A E : Type} (t : Transition σ U A E)
    (action : Option (Hook σ U A E)) (condition : Option (GuardFn σ U A E))
    (enter : Option (Hook σ U A E)) (exit : Option (Hook σ U A E))
    (before : Option (Hook σ U A E)) (after : Option (Hook σ U A E)) :
    Transition σ U A E where
  current_state := t.current_state
  next_state := t.next_state
  action := match action with
    | some f => some f
    | none => t.action
  condition := condition.getD t.condition
  on_enter := enter.getD t.on_enter
  on_exit := exit.getD t.on_exit
  on_before := before.getD t.on_before
  on_after := after.getD t.on_after

/-- `Transition.__call__` (source lines 125-129): register the decorated
function as the transition's action (`self.update(action=func)`). -/
def call {σ U A E : Type} (t : Transition σ U A E) (func : Option (Hook σ U A E)) :
    Transition σ U A E :=
  t.update func none none none none none

/-- `Transition.guard` (source lines 153-158): `self.update(condition=func)`. -/
def guard {σ U A E : Type} (t : Transition σ U A E) (func : GuardFn σ U A E) :
    Transition σ U A E :=
  t.update none (some func) none none none none

/-- `Transition.enter` (source lines 160-165): `self.update(enter=func)`. -/
def enter {σ U A E : Type} (t : Transition σ U A E) (func : Hook σ U A E) :
    Transition σ U A E :=
  t.update none none (some func) none none none

/-- `Transition.exit` (source lines 167-172): `self.update(exit=func)`. -/
def exit {σ U A E : Type} (t : Transition σ U A E) (func : Hook σ U A E) :
    Transition σ U A E :=
  t.update none none none (some func) none none

/-- `Transition.before` (source lines 174-179): `self.update(before=func)`. -/
def before {σ U A E : Type} (t : Transition σ U A E) (func : Hook σ U A E) :
    Transition σ U A E :=
  t.update none none none none (some func) none

/-- `Transition.after` (source lines 181-186): `self.update(after=func)`. -/
def after {σ U A E : Type} (t : Transition σ U A E) (func : Hook σ U A E) :
    Transition σ U A E :=
  t.update none none none none none (some func)

end Transition

/-- A machine: any object carrying the three engine-managed attributes plus
arbitrary user data.  An outer `none` means the attribute is not set at all
(`hasattr` is false); `some v` means the attribute holds the Python value
`v`.  `transition_event` holds a notifier identity token when set. -/
structure Machine (σ U A E : Type) : Type where
  state : Option (Option σ)
  transition : Option (Option (Transition σ U A E))
  transition_event : Option Nat
  user : U

/-- `set_attr_default` (source lines 294-299): the attribute's value after the
call — set it to the default only when it was not yet defined. -/
def set_attr_default {α : Type} (cur : Option α) (default : α) : Option α :=
  match cur with
  | none => some default
  | some v => some v

/-- The lazy-initialization step of `Transition.wrapper` (source lines
255-258): set `state`, `transition` and `transition_event` to the class-level
defaults on the machine when they are absent. -/
def wrapper_defaults {σ U A E : Type} (m : Machine σ U A E) : Machine σ U A E where
  state := set_attr_default m.state Transition.default_state
  transition := set_attr_default m.transition Transition.default_transition
  transition_event := set_attr_default m.transition_event Transition.default_transition_event
  user := m.user

/-- `initialized` (source lines 302-309); renamed because Lean-side tooling
reserves the source's name.  `True` iff the machine has all of `state`,
`transition` and `transition_event` set. -/
def machineReady {σ U A E : Type} (m : Machine σ U A E) : Bool :=
  m.state.isSome && m.transition.isSome && m.transition_event.isSome

/-- The part of `decorator` (source lines 243-248) reached once the
applicability and guard checks passed and the previous transition's
`on_exit` (if any) returned normally: `transition_into`'s
`try: on_before; yield; finally: on_after` (source lines 200-216) around
`new.action(machine, ...)`, then the commit `machine.transition = self;
machine.state = self.next_state` (source lines 197-198), with `notify_all`
fired when the `with machine.transition_event` scope exits (source lines
59-61).  `state` is the machine-state value every callable observes (the
commit is the last step, so it never changes under the hooks), `m.user` is
the user data after the previous transition's exit hook ran, and `tr` the
events already emitted.  Errors: `Except.error (some e)` propagates a raised
`e`; `Except.error none` models the host `TypeError` from calling a `None`
action. -/
def transitionBody {σ U A E : Type} (t : Transition σ U A E) (m : Machine σ U A E)
    (state : Option σ) (a : A) (tr : List Ev) :
    Except (Option E) (Option σ) × Machine σ U A E × List Ev :=
  match t.on_before state m.user a with
  | Except.error e =>
    -- `finally`: `on_after` still runs; an exception it raises replaces the
    -- one raised by `on_before`.
    (match t.on_after state m.user a with
      | Except.error e2 => (Except.error (some e2), m, tr ++ [Ev.beforeEv, Ev.afterEv, Ev.notifyEv])
      | Except.ok u2 => (Except.error (some e), { m with user := u2 },
          tr ++ [Ev.beforeEv, Ev.afterEv, Ev.notifyEv]))
  | Except.ok u1 =>
    match t.action with
    | none =>
      -- `new.action(machine, ...)` with `action = None` raises at the call
      -- site; the `finally` still runs `on_after`, then the failure
      -- propagates and the commit is skipped.
      (match t.on_after state u1 a with
        | Except.error e2 => (Except.error (some e2), { m with user := u1 },
            tr ++ [Ev.beforeEv, Ev.afterEv, Ev.notifyEv])
        | Except.ok u3 => (Except.error none, { m with user := u3 },
            tr ++ [Ev.beforeEv, Ev.afterEv, Ev.notifyEv]))
    | some act =>
      match act state u1 a with
      | Except.error e =>
        (match t.on_after state u1 a with
          | Except.error e2 => (Except.error (some e2), { m with user := u1 },
              tr ++ [Ev.beforeEv, Ev.actionEv, Ev.afterEv, Ev.notifyEv])
          | Except.ok u3 => (Except.error (some e), { m with user := u3 },
              tr ++ [Ev.beforeEv, Ev.actionEv, Ev.afterEv, Ev.notifyEv]))
      | Except.ok u2 =>
        match t.on_after state u2 a with
        | Except.error e2 => (Except.error (some e2), { m with user := u2 },
            tr ++ [Ev.beforeEv, Ev.actionEv, Ev.afterEv, Ev.notifyEv])
        | Except.ok u3 =>
          (Except.ok t.next_state,
            { m with user := u3, transition := some (some t), state := some t.next_state },
            tr ++ [Ev.beforeEv, Ev.actionEv, Ev.afterEv, Ev.notifyEv])

/-- One full invocation of a transition on a machine: descriptor access
(which runs `set_attr_default` for the three engine attributes, source lines
255-258) followed by `decorator(*args, **kwargs)` (source lines 224-248).
Returns the call's outcome (returned state value, or propagated failure),
the machine afterwards, and the chronological event trace. -/
def invoke {σ U A E : Type} [DecidableEq σ] (t : Transition σ U A E)
    (m0 : Machine σ U A E) (a : A) :
    Except (Option E) (Option σ) × Machine σ U A E × List Ev :=
  let m := wrapper_defaults m0
  let state := m.state.getD Transition.default_state
  -- `if state not in iterable(self.current_state): return state`
  if state ∉ iterable t.current_state then
    (Except.ok state, m, [])
  else
    -- `if self.condition and not bool(self.condition(machine, ...)): return state`
    -- (`self.condition` is always a callable, hence truthy)
    match t.condition state m.user a with
    | Except.error e => (Except.error (some e), m, [Ev.guardEv])
    | Except.ok cond =>
      if cond = false then
        (Except.ok state, m, [Ev.guardEv])
      else
        -- `with machine.transition_event:` then `transition_from`: run the
        -- previous transition's `on_exit` when one is set (source 193-195)
        match m.transition.getD Transition.default_transition with
        | some prev =>
          (match prev.on_exit state m.user a with
            | Except.error e => (Except.error (some e), m, [Ev.guardEv, Ev.exitEv, Ev.notifyEv])
            | Except.ok u1 =>
              transitionBody t { m with user := u1 } state a [Ev.guardEv, Ev.exitEv])
        | none => transitionBody t m state a [Ev.guardEv]

/-- The waiting loop of `wait_for_state` (source lines 280-291), run once the
machine is known to be initialized.  Real blocking is modelled by an oracle:
`wakes` lists, for each return from `machine.transition_event.wait(...)`, the
clock value `time.time()` would read at the next deadline check and the
machine state observed on re-check.  `cur` is the state currently observed,
`endT` the absolute deadline once computed (`end` in the source), `now` the
last clock reading, `n` the number of waits performed so far.  The result is
`(some b, n)` when the source returns `b` after `n` waits, and `(none, n)`
when the source would still be blocked after the oracle is exhausted. -/
def waitLoop {σ : Type} [DecidableEq σ] (target : Option σ) (timeout : Option ℚ) :
    Option σ → Option ℚ → ℚ → Nat → List (ℚ × Option σ) → Option Bool × Nat
  | cur, endT, now, n, wakes =>
    if cur = target then (some true, n)
    else
      match timeout with
      | none =>
        -- wait indefinitely (`remaining = None`)
        (match wakes with
          | [] => (none, n)
          | (t2, s2) :: rest => waitLoop target timeout s2 endT t2 (n + 1) rest)
      | some tmo =>
        match endT with
        | none =>
          -- first pass: `end = time.time() + timeout`, then wait
          (match wakes with
            | [] => (none, n)
            | (t2, s2) :: rest => waitLoop target timeout s2 (some (now + tmo)) t2 (n + 1) rest)
        | some e =>
          -- later passes: `remaining = end - time.time()`
          if e - now ≤ 0 then (some false, n)
          else
            match wakes with
            | [] => (none, n)
            | (t2, s2) :: rest => waitLoop target timeout s2 (some e) t2 (n + 1) rest

/-- `wait_for_state` (source lines 266-291).  `t0` is the clock reading
`time.time()` would yield on the first deadline computation; `wakes` is the
wakeup oracle (see `waitLoop`).  Returns the boolean result (or `none` when
the call would still be blocked past the oracle) together with the number of
waits performed — `0` waits with an immediate result means the call never
blocked. -/
def wait_for_state {σ U A E : Type} [DecidableEq σ] (machine : Machine σ U A E)
    (state : Option σ) (timeout : Option ℚ) (t0 : ℚ) (wakes : List (ℚ × Option σ)) :
    Option Bool × Nat :=
  if machineReady machine = false then (some false, 0)
  else waitLoop state timeout (machine.state.getD Transition.default_state) none t0 0 wakes

/-! ## A concrete two-state switch (the light-switch example of the source) -/

/-- Transitions of the concrete switch: states are strings, user data a
counter, no call arguments, one failure value. -/
abbrev SwitchT : Type := Transition String Nat Unit Unit

abbrev SwitchM : Type := Machine String Nat Unit Unit

/-- The decorated `on` method: `@decorstate.transition('off', 'on')`. -/
def onT : SwitchT where
  current_state := StateArg.one (some "off")
  next_state := some "on"
  action := some noop
  condition := noopGuard
  on_enter := noop
  on_exit := noop
  on_before := noop
  on_after := noop

/-- A transition declared with `current_state=None`. -/
def nullSrcT : SwitchT := { onT with current_state := StateArg.one none }

/-- The `on` transition with a before hook that raises. -/
def beforeFailT : SwitchT := { onT with on_before := fun _ _ _ => Except.error () }

/-- A machine instance on which no attribute was ever set (the
`stateless_switch` fixture of the source's tests). -/
def mStateless : SwitchM := { state := none, transition := none, transition_event := none, user := 0 }

/-- A second, distinct uninitialized machine instance. -/
def mStateless1 : SwitchM := { state := none, transition := none, transition_event := none, user := 1 }

/-- A machine whose class declared `state = 'off'`; the other two attributes
are still absent (the `switch` fixture of the source's tests). -/
def mOff : SwitchM := { state := some (some "off"), transition := none, transition_event := none, user := 0 }

/-- A fully initialized machine currently in state `"off"` with no previous
transition. -/
def mReadyOff : SwitchM :=
  { state := some (some "off"), transition := some none, transition_event := some 0, user := 0 }

/-- A fully initialized machine currently in state `"on"`. -/
def mReadyOn : SwitchM :=
  { state := some (some "on"), transition := some none, transition_event := some 0, user := 0 }

/-! ## General lemmas about the execution engine -/

variable {σ U A E : Type}

/-- Frame facts about `transitionBody`: it never touches the notifier
attribute; on a propagated failure it leaves `state` and `transition`
untouched; on a normal return it has committed exactly the invoked
transition and its target state, which is also the returned value. -/
theorem transitionBody_spec (t : Transition σ U A E) (m : Machine σ U A E)
    (state : Option σ) (a : A) (tr : List Ev) :
    ((transitionBody t m state a tr).2.1.transition_event = m.transition_event) ∧
    (∀ err, (transitionBody t m state a tr).1 = Except.error err →
      (transitionBody t m state a tr).2.1.state = m.state ∧
      (transitionBody t m state a tr).2.1.transition = m.transition) ∧
    (∀ v, (transitionBody t m state a tr).1 = Except.ok v →
      (transitionBody t m state a tr).2.1.state = some t.next_state ∧
      (transitionBody t m state a tr).2.1.transition = some (some t) ∧ v = t.next_state) := by
  unfold transitionBody
  split <;> (try split) <;> (try split) <;> (try split) <;>
    refine ⟨rfl, ?_, ?_⟩ <;> intro x hx <;> simp_all

/-- The trace emitted by `transitionBody`: the before hook always fires, the
after hook always fires exactly once after it (and after the action, when the
action was reached), and the notifier fires last. -/
theorem transitionBody_trace (t : Transition σ U A E) (m : Machine σ U A E)
    (state : Option σ) (a : A) (tr : List Ev) :
    (transitionBody t m state a tr).2.2 = tr ++ [Ev.beforeEv, Ev.afterEv, Ev.notifyEv] ∨
    (transitionBody t m state a tr).2.2 = tr ++ [Ev.beforeEv, Ev.actionEv, Ev.afterEv, Ev.notifyEv] := by
  unfold transitionBody
  split <;> (try split) <;> (try split) <;> (try split) <;> simp

/-- On an already-initialized machine the lazy-default step is the identity. -/
theorem wrapper_defaults_ready (m : Machine σ U A E) (h : machineReady m = true) :
    wrapper_defaults m = m := by
  rcases m with ⟨s, t, e, u⟩
  cases s <;> cases t <;> cases e <;> first | rfl | simp [machineReady] at h

theorem wrapper_defaults_user (m : Machine σ U A E) : (wrapper_defaults m).user = m.user := rfl

/-- Every invocation leaves the machine's notifier attribute exactly as the
lazy-default step set it: the pre-existing notifier, or the single
class-level default. -/
theorem invoke_event [DecidableEq σ] (t : Transition σ U A E) (m : Machine σ U A E) (a : A) :
    ((invoke t m a).2.1).transition_event
      = set_attr_default m.transition_event Transition.default_transition_event := by
  unfold invoke
  simp only []
  split
  · rfl
  · split
    · rfl
    · split
      · rfl
      · split
        · split
          · rfl
          · exact (transitionBody_spec _ _ _ _ _).1
        · exact (transitionBody_spec _ _ _ _ _).1

/-- No failure reaching the caller of an invocation leaves `state` or
`transition` different from what the lazy-default step produced. -/
theorem invoke_error_frame [DecidableEq σ] (t : Transition σ U A E) (m : Machine σ U A E) (a : A) :
    ∀ err, (invoke t m a).1 = Except.error err →
      (invoke t m a).2.1.state = (wrapper_defaults m).state ∧
      (invoke t m a).2.1.transition = (wrapper_defaults m).transition := by
  unfold invoke
  simp only []
  split
  · intro err h; exact absurd h (by simp)
  · split
    · intro err _; exact ⟨rfl, rfl⟩
    · split
      · intro err h; exact absurd h (by simp)
      · split
        · split
          · intro err _; exact ⟨rfl, rfl⟩
          · intro err h; exact (transitionBody_spec _ _ _ _ _).2.1 err h
        · intro err h; exact (transitionBody_spec _ _ _ _ _).2.1 err h

/-- A normal return from an invocation whose hook phase ran (the before hook
fired) has committed: `state` is the target state and `transition` the
invoked transition. -/
theorem invoke_commit [DecidableEq σ] (t : Transition σ U A E) (m : Machine σ U A E) (a : A) :
    ∀ v, (invoke t m a).1 = Except.ok v → Ev.beforeEv ∈ (invoke t m a).2.2 →
      (invoke t m a).2.1.state = some t.next_state ∧
      (invoke t m a).2.1.transition = some (some t) ∧ v = t.next_state := by
  unfold invoke
  simp only []
  split
  · intro v _ hm; simp at hm
  · split
    · intro v h; exact absurd h (by simp)
    · split
      · intro v _ hm; simp at hm
      · split
        · split
          · intro v h; exact absurd h (by simp)
          · intro v h _; exact (transitionBody_spec _ _ _ _ _).2.2 v h
        · intro v h _; exact (transitionBody_spec _ _ _ _ _).2.2 v h

/-- No execution path of an invocation emits an enter event. -/
theorem invoke_no_enter [DecidableEq σ] (t : Transition σ U A E) (m : Machine σ U A E) (a : A) :
    Ev.enterEv ∉ (invoke t m a).2.2 := by
  unfold invoke
  simp only []
  split
  · simp
  · split
    · simp
    · split
      · simp
      · split
        · split
          · simp
          · rcases transitionBody_trace t _ _ a [Ev.guardEv, Ev.exitEv] with h2 | h2 <;>
              rw [h2] <;> decide
        · rcases transitionBody_trace t _ _ a [Ev.guardEv] with h2 | h2 <;>
            rw [h2] <;> decide

/-- The hook phase of an invocation neither reads nor runs `on_enter`. -/
theorem transitionBody_enter_irrel (t : Transition σ U A E) (f : Hook σ U A E)
    (m : Machine σ U A E) (state : Option σ) (a : A) (tr : List Ev) :
    (transitionBody { t with on_enter := f } m state a tr).1 = (transitionBody t m state a tr).1 ∧
    (transitionBody { t with on_enter := f } m state a tr).2.2 = (transitionBody t m state a tr).2.2 := by
  unfold transitionBody
  cases hb : t.on_before state m.user a with
  | error e => simp [hb]
  | ok u1 =>
    cases ha : t.action with
    | none =>
      cases haf : t.on_after state u1 a <;> simp [hb, ha, haf]
    | some act =>
      cases hact : act state u1 a with
      | error e =>
        cases haf : t.on_after state u1 a <;> simp [hb, ha, hact, haf]
      | ok u2 =>
        cases haf : t.on_after state u2 a <;> simp [hb, ha, hact, haf]

/-- An invocation's outcome and event trace are independent of the invoked
transition's `on_enter` hook. -/
theorem invoke_enter_irrel [DecidableEq σ] (t : Transition σ U A E) (f : Hook σ U A E)
    (m : Machine σ U A E) (a : A) :
    (invoke { t with on_enter := f } m a).1 = (invoke t m a).1 ∧
    (invoke { t with on_enter := f } m a).2.2 = (invoke t m a).2.2 := by
  unfold invoke
  simp only []
  by_cases hc : (wrapper_defaults m).state.getD Transition.default_state ∈ iterable t.current_state
  case neg => simp [hc]
  case pos =>
    rw [if_neg (not_not_intro hc), if_neg (not_not_intro hc)]
    cases hg : t.condition ((wrapper_defaults m).state.getD Transition.default_state) (wrapper_defaults m).user a with
    | error e => simp [hg]
    | ok cond =>
      cases cond with
      | false => simp [hg]
      | true =>
        cases hp : (wrapper_defaults m).transition.getD Transition.default_transition with
        | none => simpa [hp] using transitionBody_enter_irrel t f _ _ a _
        | some prev =>
          cases hx : prev.on_exit ((wrapper_defaults m).state.getD Transition.default_state) (wrapper_defaults m).user a with
          | error e => simp [hp, hx]
          | ok u1 => simpa [hp, hx] using transitionBody_enter_irrel t f _ _ a _

/-- C1. The claim says a transition whose `current_state` is `None` passes
the applicability check (treated as unconstrained) and proceeds to the guard
check.  Counterexample: on a machine in state `"off"`, invoking `nullSrcT`
(source states `None`, target `"on"`) silently returns `"off"` with an empty
event trace — the guard was never consulted and no transition happened. -/
theorem null_source_reaches_guard_cx :
    (invoke nullSrcT mReadyOff ()).1 = Except.ok (some "off") ∧
    (invoke nullSrcT mReadyOff ()).2.2 = [] ∧
    nullSrcT.current_state = StateArg.one none ∧ nullSrcT.next_state = some "on" :=
  ⟨rfl, rfl, rfl, rfl⟩

/-- C1 (amended). `iterable(None) = []`, so a transition whose
`current_state` is `None` never passes the applicability check: for every
machine and argument list the invocation silently returns the current state,
with no guard evaluation, no hooks and no notification. -/
theorem null_source_never_applicable [DecidableEq σ] (t : Transition σ U A E)
    (m : Machine σ U A E) (a : A) (h : t.current_state = StateArg.one none) :
    invoke t m a = (Except.ok ((wrapper_defaults m).state.getD Transition.default_state),
      wrapper_defaults m, []) := by
  simp [invoke, h, iterable]

/-- C1 witness: the amended statement at the concrete input. -/
theorem null_source_never_applicable_witness :
    invoke nullSrcT mReadyOff () = (Except.ok ((wrapper_defaults mReadyOff).state.getD
      Transition.default_state), wrapper_defaults mReadyOff, []) :=
  null_source_never_applicable nullSrcT mReadyOff () rfl

/-- C2. The claim says the two-state machine starting uninitialized reaches
state `"on"` on its first `on()` call.  Counterexample: lazy initialization
sets the default state `None`, `None ∉ {"off"}` fails the applicability
check, and the first call returns `None`, not `"on"`. -/
theorem uninitialized_first_call_cx :
    (invoke onT mStateless ()).1 = Except.ok none ∧
    (Except.ok none : Except (Option Unit) (Option String)) ≠ Except.ok (some "on") :=
  ⟨rfl, by simp⟩

/-- C2 (amended). Starting uninitialized, the first `on()` call is a silent
no-op returning the default state `None` (and leaves the machine at `None`);
when the machine instead starts with `state = "off"` (the source's own
example and fixtures), the first `on()` call returns `"on"` and a second
`on()` call is a no-op returning `"on"` unchanged. -/
theorem two_state_scenario :
    (invoke onT mStateless ()).1 = Except.ok none ∧
    (invoke onT mStateless ()).2.1.state = some none ∧
    (invoke onT mOff ()).1 = Except.ok (some "on") ∧
    (invoke onT (invoke onT mOff ()).2.1 ()).1 = Except.ok (some "on") ∧
    (invoke onT (invoke onT mOff ()).2.1 ()).2.1.state = some (some "on") ∧
    (invoke onT (invoke onT mOff ()).2.1 ()).2.2 = [] :=
  ⟨rfl, rfl, rfl, rfl, rfl, rfl⟩

/-- C3. The claim says two distinct machines initialized with defaults get
distinct change-notifier objects.  Counterexample: two distinct uninitialized
machine instances end up with the same (class-level) notifier handle after
their first invocation. -/
theorem fresh_notifier_cx :
    mStateless.user ≠ mStateless1.user ∧
    (invoke onT mStateless ()).2.1.transition_event
      = (invoke onT mStateless1 ()).2.1.transition_event :=
  ⟨by decide, rfl⟩

/-- C3 (amended). Lazy initialization hands every machine lacking a notifier
the single shared class-level default `TransitionChangedEvent` instance: any
two machines initialized with defaults hold the same notifier handle, so a
transition committed on one machine wakes waiters on the other. -/
theorem default_notifier_shared [DecidableEq σ] (t1 t2 : Transition σ U A E)
    (m1 m2 : Machine σ U A E) (a1 a2 : A)
    (h1 : m1.transition_event = none) (h2 : m2.transition_event = none) :
    (invoke t1 m1 a1).2.1.transition_event = some Transition.default_transition_event ∧
    (invoke t2 m2 a2).2.1.transition_event = (invoke t1 m1 a1).2.1.transition_event := by
  rw [invoke_event, invoke_event, h1, h2]
  exact ⟨rfl, rfl⟩

/-- C3 witness: the amended statement at two concrete machines. -/
theorem default_notifier_shared_witness :
    (invoke onT mStateless ()).2.1.transition_event = some Transition.default_transition_event ∧
    (invoke onT mStateless1 ()).2.1.transition_event
      = (invoke onT mStateless ()).2.1.transition_event :=
  default_notifier_shared onT onT mStateless mStateless1 () () rfl rfl

/-- C4. If the before hook fired during an invocation, the after hook fires
exactly once, and it fires immediately before the notification that ends the
critical section — in particular any failure of the action propagates to the
caller only after the after hook has executed. -/
theorem after_fires_if_before_fired [DecidableEq σ] (t : Transition σ U A E)
    (m : Machine σ U A E) (a : A) :
    Ev.beforeEv ∈ (invoke t m a).2.2 →
    (invoke t m a).2.2.count Ev.afterEv = 1 ∧
    ∃ tr, (invoke t m a).2.2 = tr ++ [Ev.afterEv, Ev.notifyEv] := by
  unfold invoke
  simp only []
  split
  · intro h; simp at h
  · split
    · intro h; simp at h
    · split
      · intro h; simp at h
      · split
        · split
          · intro h; simp at h
          · intro _
            rcases transitionBody_trace t _ _ a [Ev.guardEv, Ev.exitEv] with h2 | h2 <;> rw [h2]
            · exact ⟨by decide, [Ev.guardEv, Ev.exitEv, Ev.beforeEv], rfl⟩
            · exact ⟨by decide, [Ev.guardEv, Ev.exitEv, Ev.beforeEv, Ev.actionEv], rfl⟩
        · intro _
          rcases transitionBody_trace t _ _ a [Ev.guardEv] with h2 | h2 <;> rw [h2]
          · exact ⟨by decide, [Ev.guardEv, Ev.beforeEv], rfl⟩
          · exact ⟨by decide, [Ev.guardEv, Ev.beforeEv, Ev.actionEv], rfl⟩

/-- C4 witness: a successful concrete invocation in which the before hook
fired. -/
theorem after_fires_if_before_fired_witness :
    (invoke onT mOff ()).2.2.count Ev.afterEv = 1 ∧
    ∃ tr, (invoke onT mOff ()).2.2 = tr ++ [Ev.afterEv, Ev.notifyEv] :=
  after_fires_if_before_fired onT mOff () (by decide)

/-- C5. The claim says a failure raised by the before hook propagates without
the after hook being owed a run.  Counterexample: on a concrete invocation
whose before hook raises, the after hook still runs (the cleanup scope of
`transition_into` encloses `on_before`), and only then does the failure
propagate. -/
theorem before_failure_skips_after_cx :
    (invoke beforeFailT mReadyOff ()).1 = Except.error (some ()) ∧
    Ev.afterEv ∈ (invoke beforeFailT mReadyOff ()).2.2 :=
  ⟨rfl, by decide⟩

/-- C5 (amended). A failure raised by the previous transition's exit hook
propagates immediately — neither the before nor the after hook of the
invoked transition runs.  A failure raised by the before hook, however,
propagates only after the after hook has run: the cleanup guarantee encloses
the before hook together with the action. -/
theorem exit_failure_immediate_before_failure_cleaned [DecidableEq σ]
    (t prev : Transition σ U A E) (m0 : Machine σ U A E) (a : A) (e : E)
    (hs : (wrapper_defaults m0).state.getD Transition.default_state ∈ iterable t.current_state)
    (hg : t.condition ((wrapper_defaults m0).state.getD Transition.default_state) m0.user a
      = Except.ok true) :
    ((wrapper_defaults m0).transition = some (some prev) →
      prev.on_exit ((wrapper_defaults m0).state.getD Transition.default_state) m0.user a
        = Except.error e →
      invoke t m0 a = (Except.error (some e), wrapper_defaults m0,
        [Ev.guardEv, Ev.exitEv, Ev.notifyEv])) ∧
    ((wrapper_defaults m0).transition = some none →
      t.on_before ((wrapper_defaults m0).state.getD Transition.default_state) m0.user a
        = Except.error e →
      Ev.afterEv ∈ (invoke t m0 a).2.2 ∧ ∃ err, (invoke t m0 a).1 = Except.error err) := by
  constructor
  · intro hprev hexit
    simp [invoke, hs, hg, hprev, hexit, wrapper_defaults_user]
  · intro hprev hb
    cases haf : t.on_after ((wrapper_defaults m0).state.getD Transition.default_state) m0.user a <;>
      simp [invoke, transitionBody, hs, hg, hprev, hb, haf, wrapper_defaults_user]

/-- C5 witness: the before-failure clause of the amended statement at the
concrete input. -/
theorem exit_failure_immediate_before_failure_cleaned_witness :
    Ev.afterEv ∈ (invoke beforeFailT mReadyOff ()).2.2 ∧
    ∃ err, (invoke beforeFailT mReadyOff ()).1 = Except.error err :=
  (exit_failure_immediate_before_failure_cleaned beforeFailT onT mReadyOff () ()
    (by decide) rfl).2 rfl rfl

/-- C6. No partial commit: on an initialized machine, an invocation that
propagates a failure (from the exit hook, before hook, action, or after
hook) leaves `state` and `transition` exactly at their pre-invocation
values; an invocation that returns normally after its hook phase ran has
`state` equal to the transition's target state and `transition` equal to the
invoked transition — both written together as the final step. -/
theorem commit_atomicity [DecidableEq σ] (t : Transition σ U A E) (m0 : Machine σ U A E) (a : A)
    (hready : machineReady m0 = true) :
    (∀ err, (invoke t m0 a).1 = Except.error err →
      (invoke t m0 a).2.1.state = m0.state ∧ (invoke t m0 a).2.1.transition = m0.transition) ∧
    (∀ v, (invoke t m0 a).1 = Except.ok v → Ev.beforeEv ∈ (invoke t m0 a).2.2 →
      (invoke t m0 a).2.1.state = some t.next_state ∧
      (invoke t m0 a).2.1.transition = some (some t)) := by
  refine ⟨fun err h => ?_, fun v h hm => ?_⟩
  · have h2 := invoke_error_frame t m0 a err h
    rwa [wrapper_defaults_ready m0 hready] at h2
  · exact ⟨(invoke_commit t m0 a v h hm).1, (invoke_commit t m0 a v h hm).2.1⟩

/-- C6 witness: a successful concrete invocation commits target state and
transition together. -/
theorem commit_atomicity_witness :
    (invoke onT mReadyOff ()).2.1.state = some onT.next_state ∧
    (invoke onT mReadyOff ()).2.1.transition = some (some onT) :=
  (commit_atomicity onT mReadyOff () rfl).2 (some "on") rfl (by decide)

/-- C7. An inapplicable invocation (current state not in the source-state
set, or guard returning false) is a silent no-op: it returns the current
state, leaves the machine — in particular `state` and `transition` —
entirely unchanged, raises nothing, and runs no exit/before/after hook and
no action (at most the guard was evaluated). -/
theorem inapplicable_transition_noop [DecidableEq σ] (t : Transition σ U A E)
    (m0 : Machine σ U A E) (a : A) (hready : machineReady m0 = true)
    (h : m0.state.getD Transition.default_state ∉ iterable t.current_state ∨
      t.condition (m0.state.getD Transition.default_state) m0.user a = Except.ok false) :
    (invoke t m0 a).1 = Except.ok (m0.state.getD Transition.default_state) ∧
    (invoke t m0 a).2.1 = m0 ∧
    ∀ ev ∈ (invoke t m0 a).2.2, ev = Ev.guardEv := by
  have hw := wrapper_defaults_ready m0 hready
  rcases h with h | h
  · simp [invoke, hw, h]
  · by_cases hc : m0.state.getD Transition.default_state ∉ iterable t.current_state
    · simp [invoke, hw, hc]
    · simp [invoke, hw, hc, h]

/-- C7 witness: invoking the `on` transition on a machine in state `"on"`
is a silent no-op. -/
theorem inapplicable_transition_noop_witness :
    (invoke onT mReadyOn ()).1 = Except.ok (mReadyOn.state.getD Transition.default_state) ∧
    (invoke onT mReadyOn ()).2.1 = mReadyOn ∧
    ∀ ev ∈ (invoke onT mReadyOn ()).2.2, ev = Ev.guardEv :=
  inapplicable_transition_noop onT mReadyOn () rfl (Or.inl (by decide))

/-- C8. `wait_for_state` on a machine that was never initialized returns
`False` immediately — for every target state, every timeout, and every
wakeup schedule, the result is `False` with zero waits performed. -/
theorem wait_uninitialized_false [DecidableEq σ] (m : Machine σ U A E)
    (target : Option σ) (timeout : Option ℚ) (t0 : ℚ) (wakes : List (ℚ × Option σ))
    (h : machineReady m = false) :
    wait_for_state m target timeout t0 wakes = (some false, 0) := by
  simp [wait_for_state, h]

/-- C8 witness: the statement at a concrete uninitialized machine. -/
theorem wait_uninitialized_false_witness :
    wait_for_state mStateless (some "on") (some 5) 0 [] = (some false, 0) :=
  wait_uninitialized_false mStateless (some "on") (some 5) 0 [] rfl

/-- C9. Each registration (`guard`, `enter`, `exit`, `before`, `after`, and
the action registration `__call__`) yields a new spec in which exactly the
registered field is the supplied callable and every other field is copied
from the original; the original spec itself is a value and is never
mutated. -/
theorem registration_replaces_one_field (t : Transition σ U A E) (g : GuardFn σ U A E)
    (h1 h2 h3 h4 act : Hook σ U A E) :
    t.guard g = { t with condition := g } ∧
    t.enter h1 = { t with on_enter := h1 } ∧
    Transition.exit t h2 = { t with on_exit := h2 } ∧
    t.before h3 = { t with on_before := h3 } ∧
    Transition.after t h4 = { t with on_after := h4 } ∧
    t.call (some act) = { t with action := some act } :=
  ⟨rfl, rfl, rfl, rfl, rfl, rfl⟩

/-- C10. The enter hook is dead code: registering it stores the callable on
the new spec, yet no execution path of an invocation ever emits an enter
event, and the invocation's outcome and event trace are independent of the
stored enter hook. -/
theorem enter_hook_dead [DecidableEq σ] (t : Transition σ U A E) (m : Machine σ U A E)
    (a : A) (f : Hook σ U A E) :
    (t.enter f).on_enter = f ∧
    Ev.enterEv ∉ (invoke t m a).2.2 ∧
    (invoke { t with on_enter := f } m a).1 = (invoke t m a).1 ∧
    (invoke { t with on_enter := f } m a).2.2 = (invoke t m a).2.2 :=
  ⟨rfl, invoke_no_enter t m a, (invoke_enter_irrel t f m a).1, (invoke_enter_irrel t f m a).2⟩

end Decorstate
